import Mathlib

/- Shallow embedding of the GNS3 controller's node/compute orchestration layer:
the controller VM entity (parts of gns3server/controller/vm.py are modelled from
the spec where that class is absent from the sources), the VirtualBox REST
handler (gns3server/handlers/virtualbox_handler.py) and the configuration store
(gns3server/config.py). -/

set_option autoImplicit false

/-- JSON scalar values exchanged with a compute engine. -/
inductive JVal where
  | str : String → JVal
  | num : Nat → JVal
  deriving DecidableEq, Repr

/-- A single RPC request sent to a compute engine: HTTP-style method, path
relative to the engine's base address, and an optional JSON object body. -/
structure RPCCall where
  method : String
  path : String
  body : Option (List (String × JVal))
  deriving DecidableEq, Repr

/-- Lifecycle states of a node, per spec section 4.2. -/
inductive NodeStatus where
  | Pending
  | Created
  | Started
  | Stopped
  | Suspended
  deriving DecidableEq, Repr

/-- The controller-side VM model, mirroring the fields exercised by
tests/controller/test_vm.py (project, compute id elided, vm_id, vm_type, name,
console, console_type, properties).  A property whose value is `none` models a
Python attribute holding `None` (absent). -/
structure VMState where
  project_id : String
  vm_id : String
  vm_type : String
  name : String
  console : Option Nat
  console_type : String
  properties : List (String × Option JVal)
  status : NodeStatus
  deriving DecidableEq, Repr

/-- Look up a key in a JSON object represented as an association list. -/
def lookupKey (l : List (String × JVal)) (k : String) : Option JVal :=
  (l.find? (fun kv => kv.1 == k)).map Prod.snd

/-- The collection path used by the controller VM's create call:
`/projects/{project_id}/{vm_type}/vms`. -/
def vmsPath (vm : VMState) : String :=
  "/projects/" ++ vm.project_id ++ "/" ++ vm.vm_type ++ "/vms"

/-- Modelled from the spec: gns3server/controller/vm.py (the controller VM
class) is not under src, only its tests are.  Per spec section 4.2, `create()`
"builds a request payload from all currently-set scalar attributes (console,
console_type, id) merged with the full properties mapping, but omits any
property whose value is empty/absent".  The scalar attributes seen in the
tests are vm_id, name, console_type and, when set, console. -/
def createPayload (vm : VMState) : List (String × JVal) :=
  [("vm_id", JVal.str vm.vm_id),
   ("name", JVal.str vm.name),
   ("console_type", JVal.str vm.console_type)]
  ++ (match vm.console with
      | some c => [("console", JVal.num c)]
      | none => [])
  ++ vm.properties.filterMap (fun kv =>
      match kv.2 with
      | some v => some (kv.1, v)
      | none => none)

/-- Set (overwrite or append) a key in a properties association list. -/
def setProp : List (String × Option JVal) → String → Option JVal →
    List (String × Option JVal)
  | [], k, v => [(k, v)]
  | p :: rest, k, v =>
    if p.1 = k then (p.1, v) :: rest else p :: setProp rest k v

/-- Modelled from the spec: gns3server/controller/vm.py is not under src.  Per
spec section 4.2, on success `create()` "merges every key of the JSON response
into matching local attributes (console, and any property key already known to
the properties mapping or newly introduced by the response)". -/
def mergeResponseKey (vm : VMState) (kv : String × JVal) : VMState :=
  if kv.1 = "console" then
    { vm with console :=
        match kv.2 with
        | JVal.num n => some n
        | JVal.str _ => vm.console }
  else
    { vm with properties := setProp vm.properties kv.1 (some kv.2) }

/-- Result of running one node operation: an optional error, the resulting
node state (unchanged from the input state when the operation failed), and the
list of RPC calls issued to the compute engine. -/
structure NodeOutcome where
  err : Option String
  vm : VMState
  rpcs : List RPCCall
  deriving DecidableEq, Repr

/-- Modelled from the spec: gns3server/controller/vm.py is not under src.  Per
spec section 4.2, `create()` requires the node to be Pending, issues a POST to
the vms collection path with the filtered payload, merges the engine's JSON
response into local state and transitions the node to Created.  The engine's
response is passed in as the `resp` argument. -/
def create (vm : VMState) (resp : List (String × JVal)) : NodeOutcome :=
  if vm.status = NodeStatus.Pending then
    let merged := resp.foldl mergeResponseKey vm
    { err := none,
      vm := { merged with status := NodeStatus.Created },
      rpcs := [{ method := "POST", path := vmsPath vm,
                 body := some (createPayload vm) }] }
  else
    { err := some "node is not in pending state", vm := vm, rpcs := [] }

/-- The four lifecycle actions exercised by tests/controller/test_vm.py. -/
inductive VMAction where
  | start
  | stop
  | suspend
  | reload
  deriving DecidableEq, Repr

def actionName : VMAction → String
  | VMAction.start => "start"
  | VMAction.stop => "stop"
  | VMAction.suspend => "suspend"
  | VMAction.reload => "reload"

/-- The fixed action path
`/projects/{project_id}/{node_type}/vms/{node_id}/{action}`. -/
def actionPath (vm : VMState) (a : VMAction) : String :=
  "/projects/" ++ vm.project_id ++ "/" ++ vm.vm_type ++ "/vms/" ++ vm.vm_id
    ++ "/" ++ actionName a

/-- Successful-action state transitions per spec section 4.2 (reload returns
to whichever state the engine reports, modelled as keeping the prior state). -/
def actionStatus : VMAction → NodeStatus → NodeStatus
  | VMAction.start, _ => NodeStatus.Started
  | VMAction.stop, _ => NodeStatus.Stopped
  | VMAction.suspend, _ => NodeStatus.Suspended
  | VMAction.reload, s => s

/-- Modelled from the spec: gns3server/controller/vm.py is not under src.  Per
spec section 4.2, each of start/stop/suspend/reload "maps to a fixed RPC action
path POST /projects/{id}/{node_type}/vms/{vm_id}/{action} with no body";
`rpcOk` models whether that single RPC succeeds; a failed RPC raises and leaves
local state untouched. -/
def runAction (vm : VMState) (a : VMAction) (rpcOk : Bool) : NodeOutcome :=
  if rpcOk then
    { err := none,
      vm := { vm with status := actionStatus a vm.status },
      rpcs := [{ method := "POST", path := actionPath vm a, body := none }] }
  else
    { err := some "rpc failure",
      vm := vm,
      rpcs := [{ method := "POST", path := actionPath vm a, body := none }] }

/-- Convenience constructor for a node in Pending state. -/
def pendingNode (pid id vt nm ct : String) (co : Option Nat)
    (props : List (String × Option JVal)) : VMState :=
  { project_id := pid, vm_id := id, vm_type := vt, name := nm,
    console := co, console_type := ct, properties := props,
    status := NodeStatus.Pending }

/- ---------------------------------------------------------------------
VirtualBox handler (gns3server/handlers/virtualbox_handler.py): the NIO
subsystem and the update handler.
--------------------------------------------------------------------- -/

/-- A validated request value: schema validation (out of scope per the spec)
guarantees request bodies carry type-correct scalars. -/
inductive AttrVal where
  | s : String → AttrVal
  | n : Nat → AttrVal
  deriving DecidableEq, Repr

/-- A NIO specification as submitted by a client; `unknownKind` stands for any
shape the binding factory does not accept. -/
inductive NioSpec where
  | udp : Nat → String → Nat → NioSpec
  | unknownKind : String → NioSpec
  deriving DecidableEq, Repr

/-- A constructed network I/O binding. -/
inductive NioBinding where
  | udp : Nat → String → Nat → NioBinding
  deriving DecidableEq, Repr

/-- Modelled from the spec: the NIO binding factory (the VirtualBox manager's
create_nio, not under src) "validates the kind against a fixed set of accepted
shapes" and fails with a ValidationError on an unrecognized kind. -/
def createNioBinding : NioSpec → Option NioBinding
  | NioSpec.udp l h r => some (NioBinding.udp l h r)
  | NioSpec.unknownKind _ => none

/-- Serialized form of a NIO binding, as posted to the compute engine. -/
def serializeNio : NioBinding → List (String × JVal)
  | NioBinding.udp l h r =>
    [("type", JVal.str "nio_udp"), ("lport", JVal.num l),
     ("rhost", JVal.str h), ("rport", JVal.num r)]

/-- The error taxonomy of spec section 7 that NIO operations can raise. -/
inductive NodeErr where
  | validationError
  | notFoundError
  | conflictError
  deriving DecidableEq, Repr

/-- The local VirtualBox VM model: the attributes touched by the handler's
update loop (vmname, adapters) plus the sparse adapter-index-to-NIO map. -/
structure VBoxVM where
  vmname : String
  adapters : Nat
  nios : List (Nat × NioBinding)
  deriving DecidableEq, Repr

/-- Result of a NIO operation: optional error, resulting VM state, RPC calls
issued. -/
structure NioOutcome where
  err : Option NodeErr
  vm : VBoxVM
  rpcs : List RPCCall
  deriving DecidableEq, Repr

/-- The per-adapter NIO path
`/projects/{project_id}/virtualbox/vms/{vm_id}/adapters/{adapter_id}/nio`. -/
def nioPath (projectId vmId : String) (adapterId : Nat) : String :=
  "/projects/" ++ projectId ++ "/virtualbox/vms/" ++ vmId ++ "/adapters/"
    ++ toString adapterId ++ "/nio"

/-- Modelled from the spec: the VM-side adapter_add_nio_binding called by the
handler's create_nio route is not under src.  Per spec section 4.3, add_nio
"validates 0 ≤ adapter_index < adapters", builds a NIO via the binding factory
(ValidationError on an unrecognized kind), fails with ConflictError if a
binding already exists at that index, and only then issues the POST and stores
the binding; an out-of-range index fails before any RPC is issued. -/
def add_nio (projectId vmId : String) (vm : VBoxVM) (adapterIdx : Nat)
    (nspec : NioSpec) : NioOutcome :=
  if vm.adapters ≤ adapterIdx then
    { err := some NodeErr.notFoundError, vm := vm, rpcs := [] }
  else
    match createNioBinding nspec with
    | none => { err := some NodeErr.validationError, vm := vm, rpcs := [] }
    | some nio =>
      if (vm.nios.find? (fun p => p.1 == adapterIdx)).isSome then
        { err := some NodeErr.conflictError, vm := vm, rpcs := [] }
      else
        { err := none,
          vm := { vm with nios := vm.nios ++ [(adapterIdx, nio)] },
          rpcs := [{ method := "POST", path := nioPath projectId vmId adapterIdx,
                     body := some (serializeNio nio) }] }

/-- `hasattr(vm, name)` over the modelled VirtualBox VM attributes. -/
def vboxHasattr (name : String) : Bool :=
  name == "vmname" || name == "adapters"

/-- `getattr(vm, name)` over the modelled VirtualBox VM attributes. -/
def vboxGetattr (vm : VBoxVM) (name : String) : Option AttrVal :=
  if name = "vmname" then some (AttrVal.s vm.vmname)
  else if name = "adapters" then some (AttrVal.n vm.adapters)
  else none

/-- Modelled from the spec: the VirtualBox VM class is not under src.  Per the
spec's data model and section 9 design notes, update is a duck-typed
hasattr/setattr partial update over plain attributes; schema-validated inputs
are type-correct, so a mistyped value leaves the field untouched. -/
def vboxSetattr (vm : VBoxVM) (name : String) (v : AttrVal) : VBoxVM :=
  if name = "vmname" then
    match v with
    | AttrVal.s s => { vm with vmname := s }
    | AttrVal.n _ => vm
  else if name = "adapters" then
    match v with
    | AttrVal.n n => { vm with adapters := n }
    | AttrVal.s _ => vm
  else vm

/-- RPC calls issued by the update handler's dedicated operations. -/
inductive UpdateRPC where
  | rename : String → UpdateRPC
  | setAdapters : Nat → UpdateRPC
  deriving DecidableEq, Repr

/-- Result of running the update handler: whether an RPC failure aborted it,
the VM state at return or at the point of failure, and the dedicated RPC calls
issued (including a failed one). -/
structure UpdOutcome where
  failed : Bool
  vm : VBoxVM
  rpcs : List UpdateRPC
  deriving DecidableEq, Repr

/-- The for-loop of VirtualBoxHandler.update: for each (name, value) item, if
the vm has the attribute and its value differs, setattr first, and when the
key is "vmname" then issue the dedicated rename RPC (rename_in_virtualbox,
which reads the freshly assigned local vmname).  `renameOk` models whether
that RPC succeeds; a raised RPC error aborts the loop. -/
def updateItems (renameOk : Bool) : VBoxVM → List (String × AttrVal) →
    UpdOutcome
  | vm, [] => { failed := false, vm := vm, rpcs := [] }
  | vm, (name, value) :: rest =>
    if vboxHasattr name = true ∧ vboxGetattr vm name ≠ some value then
      let vm1 := vboxSetattr vm name value
      if name = "vmname" then
        if renameOk then
          let r := updateItems renameOk vm1 rest
          { failed := r.failed, vm := r.vm,
            rpcs := UpdateRPC.rename vm1.vmname :: r.rpcs }
        else
          { failed := true, vm := vm1, rpcs := [UpdateRPC.rename vm1.vmname] }
      else
        updateItems renameOk vm1 rest
    else
      updateItems renameOk vm rest

/-- Look up a key in a request JSON object. -/
def lookupAttr (json : List (String × AttrVal)) (k : String) : Option AttrVal :=
  (json.find? (fun p => p.1 == k)).map Prod.snd

/-- `int(value)` on a schema-validated value. -/
def attrToNat : AttrVal → Nat
  | AttrVal.n n => n
  | AttrVal.s s => s.toNat?.getD 0

/-- VirtualBoxHandler.update: runs the generic hasattr/setattr loop over the
request items, then, if the request carries "adapters" and its integer value
differs from the vm's current adapter count, calls set_adapters (a dedicated
resize RPC which, per spec section 4.3, also drops NIO bindings at indices at
or beyond the new count).  `setAdaptersOk` models whether that RPC succeeds. -/
def VirtualBoxHandler.update (renameOk setAdaptersOk : Bool) (vm : VBoxVM)
    (json : List (String × AttrVal)) : UpdOutcome :=
  let r := updateItems renameOk vm json
  if r.failed = true then r
  else
    match lookupAttr json "adapters" with
    | none => r
    | some v =>
      let a := attrToNat v
      if a ≠ r.vm.adapters then
        if setAdaptersOk then
          { failed := false,
            vm := { r.vm with
                    adapters := a,
                    nios := r.vm.nios.filter (fun p => decide (p.1 < a)) },
            rpcs := r.rpcs ++ [UpdateRPC.setAdapters a] }
        else
          { failed := true, vm := r.vm,
            rpcs := r.rpcs ++ [UpdateRPC.setAdapters a] }
      else r

/- ---------------------------------------------------------------------
Capture handler (gns3server/handlers/virtualbox_handler.py, start_capture).
--------------------------------------------------------------------- -/

/-- `os.path.join(a, b)` for two POSIX path components. -/
def osPathJoin (a b : String) : String :=
  if b.startsWith "/" then b
  else if a = "" then b
  else if a.endsWith "/" then a ++ b
  else a ++ "/" ++ b

/-- What the start_capture route produces: the downstream call made to the
VM (adapter id and pcap file path) and the JSON response body. -/
structure CaptureOutcome where
  downstreamAdapter : Nat
  downstreamPath : String
  responseJson : List (String × JVal)
  deriving DecidableEq, Repr

/-- VirtualBoxHandler.start_capture: resolves the pcap file path by joining the
project's capture working directory with the requested capture_file_name,
calls vm.start_capture with the adapter id and that path, and responds with
that same path under "pcap_file_path". -/
def VirtualBoxHandler.start_capture (captureDir : String) (adapterId : Nat)
    (captureFileName : String) : CaptureOutcome :=
  let pcapFilePath := osPathJoin captureDir captureFileName
  { downstreamAdapter := adapterId,
    downstreamPath := pcapFilePath,
    responseJson := [("pcap_file_path", JVal.str pcapFilePath)] }

/- ---------------------------------------------------------------------
Configuration store (gns3server/config.py).
--------------------------------------------------------------------- -/

/-- One configparser section: an association list of key/value settings. -/
structure IniSection where
  entries : List (String × String)
  deriving DecidableEq, Repr

/-- The parsed configuration: the implicit DEFAULT section plus the named
sections. -/
structure ConfigData where
  defaultSection : IniSection
  sections : List (String × IniSection)
  deriving DecidableEq, Repr

/-- `section in self._config` (membership among the named sections). -/
def Config.hasSection (c : ConfigData) (s : String) : Bool :=
  c.sections.any (fun p => p.1 == s)

/-- `self._config[section]` as a partial lookup among the named sections. -/
def Config.sectionLookup (c : ConfigData) (s : String) : Option IniSection :=
  (c.sections.find? (fun p => p.1 == s)).map Prod.snd

/-- Config.get_section_config: "if section not in self._config: return
self._config[DEFAULT]; return self._config[section]". -/
def Config.get_section_config (c : ConfigData) (s : String) : IniSection :=
  if Config.hasSection c s = false then c.defaultSection
  else (Config.sectionLookup c s).getD c.defaultSection

/-- The spec's words for the settings lookup: return the section with the
given name when the configuration contains it, the default section
otherwise. -/
def getSectionSpec (c : ConfigData) (s : String) : IniSection :=
  match Config.sectionLookup c s with
  | some sec => sec
  | none => c.defaultSection

/-- The UNIX branch of Config's constructor default file list (server.conf
candidates plus the cloud file), as laid out in config.py. -/
def defaultConfigFiles (home : String) : List String :=
  [home ++ "/.config/GNS3/server.conf",
   home ++ "/.config/GNS3.conf",
   "/etc/xdg/GNS3/server.conf",
   "/etc/xdg/GNS3.conf",
   "server.conf",
   home ++ "/.config/GNS3/cloud.conf"]

/-- The slice of a Config object's state that the constructor's files handling
determines. -/
structure ConfigFilesState where
  files : List String
  deriving DecidableEq, Repr

/-- Config's constructor: stores the files argument, replacing it with the
platform default list when it is None. -/
def configInit (home : String) (files : Option (List String)) :
    ConfigFilesState :=
  { files :=
      match files with
      | none => defaultConfigFiles home
      | some fs => fs }

/-- Config.instance, embedded with explicit singleton state: if the class
attribute `_instance` is unset, construct `Config()` (so with files = None)
and store it; return the stored instance.  The `files` parameter is declared
by the source but never used by its body. -/
def Config.getInstance (st : Option ConfigFilesState) (home : String)
    (files : List String) : ConfigFilesState × Option ConfigFilesState :=
  match st with
  | some c => (c, some c)
  | none =>
    let c := configInit home none
    (c, some c)

/- ---------------------------------------------------------------------
Theorems.
--------------------------------------------------------------------- -/

/-- Helper: setting a key absent from a properties map appends it, retaining
every previously present entry. -/
theorem setProp_of_not_mem (props : List (String × Option JVal)) (k : String)
    (v : Option JVal) (h : props.all (fun p => !(p.1 == k)) = true) :
    setProp props k v = props ++ [(k, v)] := by
  induction props with
  | nil => rfl
  | cons p rest ih =>
    simp only [List.all_cons, Bool.and_eq_true, Bool.not_eq_true'] at h
    have hne : ¬ p.1 = k := by
      intro hk
      simpa [hk] using h.1
    simp [setProp, hne, ih h.2]

/-- C1: for a Pending node with properties {"startup_script": "echo test"} and
no console set, create() sends exactly one POST to the vms collection path
whose payload holds exactly the vm_id, name, console_type and startup_script
keys, and contains no "console" key. -/
theorem C1_create_payload_omits_absent (pid id vt nm ct : String)
    (resp : List (String × JVal)) :
    (create (pendingNode pid id vt nm ct none
        [("startup_script", some (JVal.str "echo test"))]) resp).rpcs =
      [{ method := "POST", path := "/projects/" ++ pid ++ "/" ++ vt ++ "/vms",
         body := some [("vm_id", JVal.str id), ("name", JVal.str nm),
                       ("console_type", JVal.str ct),
                       ("startup_script", JVal.str "echo test")] }] ∧
    lookupKey (createPayload (pendingNode pid id vt nm ct none
        [("startup_script", some (JVal.str "echo test"))])) "console" = none := by
  constructor
  · simp [create, pendingNode, vmsPath, createPayload]
  · simp [lookupKey, createPayload, pendingNode]

/-- C4: create() on a Pending node succeeds, transitions the node to Created,
and sets console to exactly the value the engine returned, whatever console
value (a caller-supplied default included) the node held before. -/
theorem C4_create_console_from_engine (pid id vt nm ct : String)
    (co : Option Nat) (props : List (String × Option JVal)) (c : Nat) :
    (create (pendingNode pid id vt nm ct co props)
        [("console", JVal.num c)]).err = none ∧
    (create (pendingNode pid id vt nm ct co props)
        [("console", JVal.num c)]).vm.status = NodeStatus.Created ∧
    (create (pendingNode pid id vt nm ct co props)
        [("console", JVal.num c)]).vm.console = some c := by
  refine ⟨?_, ?_, ?_⟩ <;> simp [create, pendingNode, mergeResponseKey]

/-- C5: when the engine's response to create() carries a key that is neither
the console scalar nor already present in the properties map, that key is
merged into the properties map and every previously present entry is
retained. -/
theorem C5_create_merges_new_response_key (pid id vt nm ct : String)
    (co : Option Nat) (props : List (String × Option JVal)) (k : String)
    (v : JVal) (hk : k ≠ "console")
    (hmem : props.all (fun p => !(p.1 == k)) = true) :
    (create (pendingNode pid id vt nm ct co props)
        [("console", JVal.num 2048), (k, v)]).vm.properties =
      props ++ [(k, some v)] := by
  simp [create, pendingNode, mergeResponseKey, hk,
        setProp_of_not_mem props k (some v) hmem]

/-- C5 witness: the test_create_without_console scenario, with startup_script
present beforehand and test_value newly introduced by the response. -/
theorem C5_witness :
    ("test_value" : String) ≠ "console" ∧
    ([("startup_script", some (JVal.str "echo test"))].all
        (fun p => !(p.1 == "test_value")) = true) ∧
    (create (pendingNode "p1" "n1" "vpcs" "demo" "vnc" none
        [("startup_script", some (JVal.str "echo test"))])
        [("console", JVal.num 2048),
         ("test_value", JVal.str "success")]).vm.properties =
      [("startup_script", some (JVal.str "echo test"))]
        ++ [("test_value", some (JVal.str "success"))] :=
  ⟨by decide, by decide,
   C5_create_merges_new_response_key "p1" "n1" "vpcs" "demo" "vnc" none
     [("startup_script", some (JVal.str "echo test"))] "test_value"
     (JVal.str "success") (by decide) (by decide)⟩

/-- C6: each of start/stop/suspend/reload issues exactly one RPC, a POST to
the fixed action path with no body, and when that RPC fails the node's local
state is unchanged. -/
theorem C6_actions_single_rpc_no_state_change_on_failure (vm : VMState)
    (a : VMAction) (ok : Bool) :
    (runAction vm a ok).rpcs =
      [{ method := "POST", path := actionPath vm a, body := none }] ∧
    (runAction vm a false).vm = vm := by
  cases ok <;> simp [runAction]

/-- A concrete VirtualBox VM for counterexamples: named "old", one adapter. -/
def vboxOld : VBoxVM := { vmname := "old", adapters := 1, nios := [] }

/-- C2: counterexample.  The claim says that when the dedicated rename RPC
fails, the local vmname field still holds its previous value; but the handler
assigns the attribute before issuing the rename, so after a failed rename the
local vmname already holds the new value ("new", not "old"). -/
theorem C2_counterexample :
    (VirtualBoxHandler.update false true vboxOld
        [("vmname", AttrVal.s "new")]).failed = true ∧
    (VirtualBoxHandler.update false true vboxOld
        [("vmname", AttrVal.s "new")]).vm.vmname = "new" ∧
    vboxOld.vmname ≠ "new" := by
  refine ⟨by decide, by decide, by decide⟩

/-- C2 (amended): update()'s generic loop assigns every recognized differing
key locally, the keys routed to a dedicated RPC included; for a vmname rename
the local field is changed before the rename RPC is issued, so when that RPC
fails the local field holds the new value. -/
theorem C2_amended_assign_precedes_rename (vm : VBoxVM) (x : String)
    (h : x ≠ vm.vmname) :
    (VirtualBoxHandler.update false true vm
        [("vmname", AttrVal.s x)]).failed = true ∧
    (VirtualBoxHandler.update false true vm
        [("vmname", AttrVal.s x)]).vm.vmname = x := by
  have h2 : ¬ vm.vmname = x := fun hx => h hx.symm
  constructor <;>
    simp [VirtualBoxHandler.update, updateItems, vboxHasattr, vboxGetattr,
          vboxSetattr, h2]

/-- C2 witness: the amended behavior at the concrete counterexample input. -/
theorem C2_amended_witness :
    ("new" : String) ≠ vboxOld.vmname ∧
    ((VirtualBoxHandler.update false true vboxOld
        [("vmname", AttrVal.s "new")]).failed = true ∧
     (VirtualBoxHandler.update false true vboxOld
        [("vmname", AttrVal.s "new")]).vm.vmname = "new") :=
  ⟨by decide, C2_amended_assign_precedes_rename vboxOld "new" (by decide)⟩

/-- C3: at the failing input (a VM with one adapter, an update request asking
for two, every RPC able to succeed) the handler issues no set_adapters RPC at
all: the generic hasattr/setattr loop assigns adapters locally first, so the
later difference check compares the requested count against the
already-updated attribute and never fires the dedicated resize RPC. -/
theorem C3_resize_rpc_not_issued :
    (VirtualBoxHandler.update true true vboxOld
        [("adapters", AttrVal.n 2)]).rpcs = [] ∧
    (VirtualBoxHandler.update true true vboxOld
        [("adapters", AttrVal.n 2)]).vm.adapters = 2 ∧
    vboxOld.adapters = 1 := by
  refine ⟨by decide, by decide, by decide⟩

/-- C7: add_nio at an adapter index outside [0, adapters) fails with a
ValidationError or NotFoundError, issues no RPC call, and leaves the VM's
adapter map (indeed the whole VM state) unchanged. -/
theorem C7_add_nio_out_of_range (pid vid : String) (vm : VBoxVM) (idx : Nat)
    (nspec : NioSpec) (h : vm.adapters ≤ idx) :
    ((add_nio pid vid vm idx nspec).err = some NodeErr.validationError ∨
     (add_nio pid vid vm idx nspec).err = some NodeErr.notFoundError) ∧
    (add_nio pid vid vm idx nspec).vm = vm ∧
    (add_nio pid vid vm idx nspec).rpcs = [] := by
  refine ⟨Or.inr ?_, ?_, ?_⟩ <;> simp [add_nio, h]

/-- C7 witness: a VM with two adapters, add_nio at index 5. -/
theorem C7_witness :
    ({ vmname := "vm1", adapters := 2, nios := [] } : VBoxVM).adapters ≤ 5 ∧
    (((add_nio "p1" "v1" { vmname := "vm1", adapters := 2, nios := [] } 5
        (NioSpec.udp 10000 "127.0.0.1" 20000)).err =
          some NodeErr.validationError ∨
      (add_nio "p1" "v1" { vmname := "vm1", adapters := 2, nios := [] } 5
        (NioSpec.udp 10000 "127.0.0.1" 20000)).err =
          some NodeErr.notFoundError) ∧
     (add_nio "p1" "v1" { vmname := "vm1", adapters := 2, nios := [] } 5
        (NioSpec.udp 10000 "127.0.0.1" 20000)).vm =
       { vmname := "vm1", adapters := 2, nios := [] } ∧
     (add_nio "p1" "v1" { vmname := "vm1", adapters := 2, nios := [] } 5
        (NioSpec.udp 10000 "127.0.0.1" 20000)).rpcs = []) :=
  ⟨by decide,
   C7_add_nio_out_of_range "p1" "v1" { vmname := "vm1", adapters := 2, nios := [] }
     5 (NioSpec.udp 10000 "127.0.0.1" 20000) (by decide)⟩

/-- C8: start_capture resolves the capture file path by joining the project's
capture working directory with the requested file name, issues the downstream
start-capture call with exactly that resolved path, and returns that same
path in the response body. -/
theorem C8_start_capture_resolved_path (dir nm : String) (adapterId : Nat) :
    (VirtualBoxHandler.start_capture dir adapterId nm).downstreamPath =
      osPathJoin dir nm ∧
    (VirtualBoxHandler.start_capture dir adapterId nm).downstreamAdapter =
      adapterId ∧
    (VirtualBoxHandler.start_capture dir adapterId nm).responseJson =
      [("pcap_file_path", JVal.str (osPathJoin dir nm))] :=
  ⟨rfl, rfl, rfl⟩

/-- C9: get_section_config returns the section with the given name when the
configuration contains it and the DEFAULT section otherwise; being a total
function of the configuration and the name, the lookup never fails. -/
theorem C9_get_section_config_fallback (c : ConfigData) (s : String) :
    Config.get_section_config c s = getSectionSpec c s := by
  unfold Config.get_section_config getSectionSpec Config.hasSection
    Config.sectionLookup
  cases h : c.sections.find? (fun p => p.1 == s) with
  | none =>
    have hall : ∀ x ∈ c.sections, ¬ (x.1 == s) = true :=
      List.find?_eq_none.mp h
    have hany : c.sections.any (fun p => p.1 == s) = false := by
      rw [List.any_eq_false]
      exact hall
    simp [hany]
  | some q =>
    have hq : (q.1 == s) = true :=
      List.find?_some (p := fun r => r.1 == s) (a := q) (l := c.sections) h
    have hmem : q ∈ c.sections := List.mem_of_find?_eq_some h
    have hany : c.sections.any (fun r => r.1 == s) = true :=
      List.any_eq_true.mpr ⟨q, hmem, hq⟩
    simp [hany]

/-- C10: Config.instance ignores its files argument entirely; on the first
call the singleton is constructed with the default configuration file list
(Config() is invoked without arguments, so files is None and the constructor
substitutes the platform defaults); and every later call returns the same
stored instance. -/
theorem C10_instance_singleton_ignores_files (st : Option ConfigFilesState)
    (home : String) (f1 f2 g : List String) :
    Config.getInstance st home f1 = Config.getInstance st home f2 ∧
    (Config.getInstance none home f1).1.files = defaultConfigFiles home ∧
    (Config.getInstance (Config.getInstance st home f1).2 home g).1 =
      (Config.getInstance st home f1).1 := by
  cases st <;> simp [Config.getInstance, configInit]
